import Mathlib

/-!
# EduRisk AI — verification of the risk-scoring and guidance-selection engine

Shallow embedding of the core decision logic of `src/app.py` (EduRisk AI):

* `fallback_prediction` embeds `AzureMLPredictor._fallback_prediction`
  (src/app.py lines 244-278), the local risk scorer used whenever the remote
  Azure ML endpoint is unreachable, misconfigured, or its response fails to
  parse.  Python numbers are embedded as rationals (`ℚ`).
* `weak_areas` embeds the weak-area detection block of `main`
  (src/app.py lines 616-624).
* `fallback_guidance` embeds `AzureOpenAIGuide._fallback_guidance`
  (src/app.py lines 369-431), the local guidance selector used whenever the
  remote Azure OpenAI service is unreachable or misconfigured.
* `spec_score` is a second, clearly separated definition that follows the
  specification text of §4.1 (not the source); it exists only so that the
  source scorer can be compared against the specified algorithm.
-/

/-- The six student metrics of the input record (`st.session_state.features`
built in `main`, src/app.py lines 597-604).  Python floats/ints are embedded
as rationals. -/
structure StudentMetrics where
  attendance_pct : ℚ
  assignment_score : ℚ
  quiz_score : ℚ
  midterm_score : ℚ
  study_hours_per_week : ℚ
  previous_gpa : ℚ
deriving DecidableEq, Repr

/-- The record returned by `AzureMLPredictor._fallback_prediction`
(src/app.py lines 272-278).  The `response_time` field (a wall-clock constant
`0.1` in the fallback) is omitted as a boundary concern. -/
structure Prediction where
  risk_level : String
  confidence : ℚ
  probHigh : ℚ
  probMedium : ℚ
  probLow : ℚ
  is_fallback : Bool
deriving DecidableEq, Repr

/-- The weighted score computed by `_fallback_prediction` when features are
present (src/app.py lines 248-255): raw metric values weighted by
0.15, 0.20, 0.20, 0.20, 0.15, 0.10 — no normalization of study hours or GPA. -/
def fallbackScore (f : StudentMetrics) : ℚ :=
  f.attendance_pct * (15 / 100) +
  f.assignment_score * (20 / 100) +
  f.quiz_score * (20 / 100) +
  f.midterm_score * (20 / 100) +
  f.study_hours_per_week * (15 / 100) +
  f.previous_gpa * (10 / 100)

/-- The weight vector of `_fallback_prediction`, in metric order
(attendance, assignment, quiz, midterm, study hours, GPA)
(src/app.py lines 248-255). -/
def fallbackWeights : List ℚ :=
  [15 / 100, 20 / 100, 20 / 100, 20 / 100, 15 / 100, 10 / 100]

/-- `AzureMLPredictor._fallback_prediction` (src/app.py lines 244-278).
`some f` is the call `self._fallback_prediction(features)` from the `predict`
error branches; `none` is the call `self._fallback_prediction()` made by
`_parse_response` when a 200 response cannot be parsed (lines 238, 242),
which takes Python's `if features:` false branch. -/
def fallback_prediction : Option StudentMetrics → Prediction
  | some f =>
      let score := fallbackScore f
      if score < 60 then ⟨"High", 85 / 100, 3 / 10, 4 / 10, 3 / 10, true⟩
      else if score < 75 then ⟨"Medium", 80 / 100, 3 / 10, 4 / 10, 3 / 10, true⟩
      else ⟨"Low", 90 / 100, 3 / 10, 4 / 10, 3 / 10, true⟩
  | none => ⟨"Medium", 85 / 100, 3 / 10, 4 / 10, 3 / 10, true⟩

/-- Names for the six metrics, in the fixed evaluation order used by the
weak-area block of `main` (src/app.py lines 616-622). -/
inductive MetricName where
  | attendance | assignment | quiz | midterm | studyHours | gpa
deriving DecidableEq, Repr

/-- The string appended to `weak_areas` for each flagged metric
(src/app.py lines 617-622): metric label and current value only. -/
def renderWeak : StudentMetrics → MetricName → String
  | ⟨a, _, _, _, _, _⟩, .attendance => s!"Attendance ({a}%)"
  | ⟨_, b, _, _, _, _⟩, .assignment => s!"Assignments ({b}%)"
  | ⟨_, _, q, _, _, _⟩, .quiz => s!"Quizzes ({q}%)"
  | ⟨_, _, _, d, _, _⟩, .midterm => s!"Midterm ({d}%)"
  | ⟨_, _, _, _, s, _⟩, .studyHours => s!"Study Hours ({s}/week)"
  | ⟨_, _, _, _, _, g⟩, .gpa => s!"GPA ({g}/10)"

/-- Which metrics the weak-area block of `main` flags, in its fixed
evaluation order (src/app.py lines 616-622): attendance < 75,
assignment < 60, quiz < 60, midterm < 60, study hours < 10, GPA < 6.0. -/
def weakTags : StudentMetrics → List MetricName
  | ⟨a, b, q, d, s, g⟩ =>
      (if a < 75 then [.attendance] else []) ++
      (if b < 60 then [.assignment] else []) ++
      (if q < 60 then [.quiz] else []) ++
      (if d < 60 then [.midterm] else []) ++
      (if s < 10 then [.studyHours] else []) ++
      (if g < 6 then [.gpa] else [])

/-- The `weak_areas` list built by `main` (src/app.py lines 616-624): for
each metric strictly below its threshold, in the fixed evaluation order, a
string holding the metric label and its current value. -/
def weak_areas : StudentMetrics → List String
  | ⟨a, b, q, d, s, g⟩ =>
      (if a < 75 then [s!"Attendance ({a}%)"] else []) ++
      (if b < 60 then [s!"Assignments ({b}%)"] else []) ++
      (if q < 60 then [s!"Quizzes ({q}%)"] else []) ++
      (if d < 60 then [s!"Midterm ({d}%)"] else []) ++
      (if s < 10 then [s!"Study Hours ({s}/week)"] else []) ++
      (if g < 6 then [s!"GPA ({g}/10)"] else [])

/-- Modelled from the spec: §4.1 Risk Scorer output record (risk level,
confidence, weighted score).  The source's fallback returns no weighted
score field, so this record exists only for the spec-side comparison. -/
structure RiskAssessment where
  risk_level : String
  confidence : ℚ
  weighted_score : ℚ
deriving DecidableEq, Repr

/-- Modelled from the spec: §4.1 step 1, `min(study_hours_per_week, 20) / 20 * 100`. -/
def spec_study_norm (h : ℚ) : ℚ := min h 20 / 20 * 100

/-- Modelled from the spec: §4.1 step 1, `previous_gpa * 10`. -/
def spec_gpa_norm (g : ℚ) : ℚ := g * 10

/-- Modelled from the spec: §4.1 step 2, the reference weight vector
0.25, 0.20, 0.20, 0.25, 0.05, 0.05 applied after normalization. -/
def spec_weighted_score (m : StudentMetrics) : ℚ :=
  m.attendance_pct * (25 / 100) +
  m.assignment_score * (20 / 100) +
  m.quiz_score * (20 / 100) +
  m.midterm_score * (25 / 100) +
  spec_study_norm m.study_hours_per_week * (5 / 100) +
  spec_gpa_norm m.previous_gpa * (5 / 100)

/-- Modelled from the spec: §4.1 step 3, the hard-override predicate. -/
def spec_override (m : StudentMetrics) : Prop :=
  m.attendance_pct < 60 ∨ m.assignment_score < 50 ∨ m.quiz_score < 50 ∨
  m.midterm_score < 50 ∨ m.study_hours_per_week < 5 ∨ m.previous_gpa < 5

instance (m : StudentMetrics) : Decidable (spec_override m) := by
  unfold spec_override; infer_instance

/-- Modelled from the spec: the full §4.1 Risk Scorer (normalize, weight,
hard override at confidence 0.95, then thresholds 55/70 with confidences
0.90 / 0.85 / 0.88).  This is the algorithm the spec says the fallback
implements; it is compared against the source's `fallback_prediction`. -/
def spec_score (m : StudentMetrics) : RiskAssessment :=
  let w := spec_weighted_score m
  if spec_override m then ⟨"High", 95 / 100, w⟩
  else if w < 55 then ⟨"High", 90 / 100, w⟩
  else if w < 70 then ⟨"Medium", 85 / 100, w⟩
  else ⟨"Low", 88 / 100, w⟩

/-- The three static plan templates of `AzureOpenAIGuide._fallback_guidance`
(src/app.py lines 373-429), keyed "High". -/
def highPlan : String :=
  "**🔴 URGENT 7-DAY ACADEMIC RECOVERY PLAN**\n\n**Days 1-2: IMMEDIATE ACTION REQUIRED**\n• Meet with academic advisor TODAY to create recovery plan\n• Attend 100% of classes starting immediately\n• Submit all missing assignments within 48 hours\n• Identify top 3 priority subjects needing attention\n\n**Days 3-5: INTENSIVE STUDY SESSIONS**\n• Study 4+ hours daily in focused, distraction-free environment\n• Target weakest subjects first (2 hours per weak subject daily)\n• Work with tutor or study group for difficult concepts\n• Complete 20+ practice problems per subject\n\n**Days 6-7: MOMENTUM BUILDING**\n• Take full practice exam under timed conditions\n• Create detailed 30-day study schedule\n• Review progress with mentor\n• Set up weekly accountability check-ins"

/-- The template keyed "Medium" (src/app.py lines 394-408). -/
def mediumPlan : String :=
  "**🟡 FOCUSED IMPROVEMENT PLAN - NEXT 7 DAYS**\n\n**DAILY ROUTINE (2-3 hours structured study):**\n• Morning: Review previous day\x27s material (30 mins)\n• Afternoon: Focus on one weak area (90 mins)\n• Evening: Practice and application (60 mins)\n\n**WEEKLY ACTION ITEMS:**\n1. Improve attendance to 90%+ consistently\n2. Raise assignment scores by 10+ points\n3. Master 5 key concepts in weakest subject\n4. Join or form study group\n5. Meet with professor during office hours\n6. Complete all practice quizzes\n7. Track progress with weekly self-assessment"

/-- The template keyed "Low" (src/app.py lines 410-428). -/
def lowPlan : String :=
  "**🟢 EXCELLENCE ACCELERATION PLAN**\n\n**ADVANCED LEARNING (Days 1-3):**\n• Study topics beyond current curriculum\n• Start independent academic project or research\n• Prepare for academic competitions\n• Learn advanced tools/techniques in your field\n\n**LEADERSHIP DEVELOPMENT (Days 4-5):**\n• Mentor struggling classmates\n• Lead study group sessions\n• Present a topic to your class\n• Volunteer for academic committees\n\n**FUTURE PREPARATION (Days 6-7):**\n• Prepare for advanced placement exams\n• Research university programs/scholarships\n• Build academic portfolio\n• Network with professionals in your field"

/-- `AzureOpenAIGuide._fallback_guidance` (src/app.py lines 369-431):
`plans.get(risk_level, plans["Medium"])` — lookup keyed only by the risk
level, defaulting to the Medium template. -/
def fallback_guidance (risk_level : String) : String :=
  if risk_level = "High" then highPlan
  else if risk_level = "Medium" then mediumPlan
  else if risk_level = "Low" then lowPlan
  else mediumPlan

/-- The local guidance-selection path of `AzureOpenAIGuide.generate_guidance`
(src/app.py lines 288-294, 353-367): every fallback branch returns
`self._fallback_guidance(risk_level)`, discarding `weak_areas`. -/
def select_guidance (risk_level : String) (_weak_areas : List String) : String :=
  fallback_guidance risk_level

/-! ## Helper lemmas -/

/-- The weak-area list is the fixed-order tag list rendered to strings. -/
lemma weak_areas_eq_map (m : StudentMetrics) :
    weak_areas m = (weakTags m).map (renderWeak m) := by
  obtain ⟨a, b, q, d, s, g⟩ := m
  simp only [weak_areas, weakTags, renderWeak]
  split_ifs <;> rfl

/-- Membership in an optional singleton produced by an `if`. -/
lemma mem_ite_singleton {α : Type} (c : Prop) [Decidable c] (t x : α) :
    (t ∈ if c then [x] else []) ↔ t = x ∧ c := by
  split_ifs with h <;> simp [h]

/-- Membership in the weak-area tag list, characterized per metric. -/
lemma mem_weakTags (m : StudentMetrics) (t : MetricName) :
    t ∈ weakTags m ↔
      (t = .attendance ∧ m.attendance_pct < 75) ∨
      (t = .assignment ∧ m.assignment_score < 60) ∨
      (t = .quiz ∧ m.quiz_score < 60) ∨
      (t = .midterm ∧ m.midterm_score < 60) ∨
      (t = .studyHours ∧ m.study_hours_per_week < 10) ∨
      (t = .gpa ∧ m.previous_gpa < 6) := by
  obtain ⟨a, b, q, d, s, g⟩ := m
  simp only [weakTags, List.mem_append, mem_ite_singleton]
  tauto

/-! ## C1 — hard override -/

/-- C1: counterexample.  The claim says any catastrophic condition (here
attendance 59 < 60) forces High with confidence 0.95; on the source's
fallback scorer, attendance 59 with every other metric at its maximum is
classified Low with confidence 0.90 — no override exists in the code. -/
theorem c1_counterexample :
    (59 : ℚ) < 60 ∧
    (fallback_prediction (some ⟨59, 100, 100, 100, 40, 10⟩)).risk_level = "Low" ∧
    (fallback_prediction (some ⟨59, 100, 100, 100, 40, 10⟩)).confidence = 90 / 100 := by
  norm_num [fallback_prediction, fallbackScore]

/-- C1 (amended): the fallback prediction applies no hard override —
whenever the weighted score reaches 75, the result is Low with confidence
0.90 even when a catastrophic condition such as attendance below 60 holds. -/
theorem c1_no_override (m : StudentMetrics)
    (_hatt : m.attendance_pct < 60) (hs : 75 ≤ fallbackScore m) :
    fallback_prediction (some m) =
      ⟨"Low", 90 / 100, 3 / 10, 4 / 10, 3 / 10, true⟩ := by
  have h60 : ¬ fallbackScore m < 60 := by linarith
  have h75 : ¬ fallbackScore m < 75 := by linarith
  simp [fallback_prediction, h60, h75]

/-- C1 (amended) witness at attendance 59, all other metrics maximal. -/
theorem c1_no_override_witness :
    (StudentMetrics.mk 59 100 100 100 40 10).attendance_pct < 60 ∧
    75 ≤ fallbackScore ⟨59, 100, 100, 100, 40, 10⟩ ∧
    fallback_prediction (some ⟨59, 100, 100, 100, 40, 10⟩) =
      ⟨"Low", 90 / 100, 3 / 10, 4 / 10, 3 / 10, true⟩ :=
  ⟨by norm_num, by norm_num [fallbackScore],
    c1_no_override ⟨59, 100, 100, 100, 40, 10⟩ (by norm_num) (by norm_num [fallbackScore])⟩

/-! ## C2 — fallback resolution and refinement of §4.1 -/

/-- C2: counterexample.  The claim says the fallback implements the §4.1
algorithm; at attendance 55 (within a §4.1 catastrophic condition) the §4.1
scorer answers High with confidence 0.95 while the source's fallback answers
Medium with confidence 0.80. -/
theorem c2_counterexample :
    (spec_score ⟨55, 95, 95, 95, 30, 9⟩).risk_level = "High" ∧
    (spec_score ⟨55, 95, 95, 95, 30, 9⟩).confidence = 95 / 100 ∧
    (fallback_prediction (some ⟨55, 95, 95, 95, 30, 9⟩)).risk_level = "Medium" ∧
    (fallback_prediction (some ⟨55, 95, 95, 95, 30, 9⟩)).confidence = 80 / 100 := by
  norm_num [spec_score, spec_override, spec_weighted_score, spec_study_norm, spec_gpa_norm,
    fallback_prediction, fallbackScore, min_def]

/-- C2 (amended): with features present the fallback is a total,
deterministic, non-constant function of the six metrics taking one of three
fixed results (it does not match §4.1, cf. the counterexample); when invoked
without features (the unparseable-response path) it is the constant
Medium/0.85 result. -/
theorem c2_fallback_total :
    fallback_prediction none = ⟨"Medium", 85 / 100, 3 / 10, 4 / 10, 3 / 10, true⟩ ∧
    fallback_prediction (some ⟨0, 0, 0, 0, 0, 0⟩) =
      ⟨"High", 85 / 100, 3 / 10, 4 / 10, 3 / 10, true⟩ ∧
    fallback_prediction (some ⟨100, 100, 100, 100, 100, 100⟩) =
      ⟨"Low", 90 / 100, 3 / 10, 4 / 10, 3 / 10, true⟩ ∧
    ∀ m : StudentMetrics,
      fallback_prediction (some m) = ⟨"High", 85 / 100, 3 / 10, 4 / 10, 3 / 10, true⟩ ∨
      fallback_prediction (some m) = ⟨"Medium", 80 / 100, 3 / 10, 4 / 10, 3 / 10, true⟩ ∨
      fallback_prediction (some m) = ⟨"Low", 90 / 100, 3 / 10, 4 / 10, 3 / 10, true⟩ := by
  refine ⟨by norm_num [fallback_prediction], by norm_num [fallback_prediction, fallbackScore],
    by norm_num [fallback_prediction, fallbackScore], fun m => ?_⟩
  simp only [fallback_prediction]
  split_ifs <;> simp

/-! ## C3 — classification thresholds -/

/-- C3: counterexample.  The claim's Scenario B (attendance 98, assignment
92, quiz 88, midterm 94, study hours 22, GPA 9.1) must yield Low; the
source's fallback scores it 73.71, below its 75 cutoff, and answers Medium
with confidence 0.80. -/
theorem c3_counterexample :
    fallbackScore ⟨98, 92, 88, 94, 22, 91 / 10⟩ = 7371 / 100 ∧
    (fallback_prediction (some ⟨98, 92, 88, 94, 22, 91 / 10⟩)).risk_level = "Medium" ∧
    (fallback_prediction (some ⟨98, 92, 88, 94, 22, 91 / 10⟩)).risk_level ≠ "Low" := by
  have h : fallback_prediction (some ⟨98, 92, 88, 94, 22, 91 / 10⟩) =
      ⟨"Medium", 80 / 100, 3 / 10, 4 / 10, 3 / 10, true⟩ := by
    norm_num [fallback_prediction, fallbackScore]
  refine ⟨by norm_num [fallbackScore], ?_, ?_⟩
  · rw [h]
  · rw [h]
    decide

/-- C3 (amended): the fallback classifies by thresholds 60 and 75 —
score < 60 yields High with confidence 0.85, 60 ≤ score < 75 yields Medium
with confidence 0.80, score ≥ 75 yields Low with confidence 0.90; Scenario B
falls in the Medium band. -/
theorem c3_thresholds :
    (∀ m : StudentMetrics,
      (fallbackScore m < 60 →
        fallback_prediction (some m) = ⟨"High", 85 / 100, 3 / 10, 4 / 10, 3 / 10, true⟩) ∧
      (60 ≤ fallbackScore m → fallbackScore m < 75 →
        fallback_prediction (some m) = ⟨"Medium", 80 / 100, 3 / 10, 4 / 10, 3 / 10, true⟩) ∧
      (75 ≤ fallbackScore m →
        fallback_prediction (some m) = ⟨"Low", 90 / 100, 3 / 10, 4 / 10, 3 / 10, true⟩)) ∧
    fallback_prediction (some ⟨98, 92, 88, 94, 22, 91 / 10⟩) =
      ⟨"Medium", 80 / 100, 3 / 10, 4 / 10, 3 / 10, true⟩ := by
  refine ⟨fun m => ⟨fun h => ?_, fun h1 h2 => ?_, fun h => ?_⟩,
    by norm_num [fallback_prediction, fallbackScore]⟩
  · simp [fallback_prediction, h]
  · have h60 : ¬ fallbackScore m < 60 := by linarith
    simp [fallback_prediction, h60, h2]
  · have h60 : ¬ fallbackScore m < 60 := by linarith
    have h75 : ¬ fallbackScore m < 75 := by linarith
    simp [fallback_prediction, h60, h75]

/-- C3 (amended) witness: an all-zero student scores 0 < 60 and is High. -/
theorem c3_thresholds_witness :
    fallbackScore ⟨0, 0, 0, 0, 0, 0⟩ < 60 ∧
    fallback_prediction (some ⟨0, 0, 0, 0, 0, 0⟩) =
      ⟨"High", 85 / 100, 3 / 10, 4 / 10, 3 / 10, true⟩ :=
  ⟨by norm_num [fallbackScore],
    (c3_thresholds.1 ⟨0, 0, 0, 0, 0, 0⟩).1 (by norm_num [fallbackScore])⟩

/-! ## C4 — weight-sum invariant -/

/-- C4: the six fallback weights sum to exactly 1, so a student whose six
aggregated inputs are all 100 receives weighted score exactly 100. -/
theorem c4_weight_sum :
    fallbackWeights.sum = 1 ∧
    fallbackScore ⟨100, 100, 100, 100, 100, 100⟩ = 100 := by
  constructor
  · norm_num [fallbackWeights, List.sum_cons, List.sum_nil]
  · norm_num [fallbackScore]

/-! ## C5 — normalization of study hours and GPA -/

/-- C5: counterexample.  The claim says hours beyond 20 contribute no
additional value (and §4.1's `min` clamp makes the normalized study value of
40 and 20 hours identical), yet the source's fallback scores the 40-hour
student strictly higher than the otherwise identical 20-hour student. -/
theorem c5_counterexample :
    spec_study_norm 40 = spec_study_norm 20 ∧
    fallbackScore ⟨75, 70, 65, 60, 40, 13 / 2⟩ ≠ fallbackScore ⟨75, 70, 65, 60, 20, 13 / 2⟩ := by
  norm_num [spec_study_norm, fallbackScore, min_def]

/-- C5 (amended): the fallback weights the raw, unnormalized study hours and
GPA — each extra study hour adds exactly 0.15 to the score without any clamp
at 20, and each extra GPA point adds exactly 0.10, rather than the
normalized contributions of §4.1. -/
theorem c5_raw_inputs :
    ∀ (m : StudentMetrics) (d : ℚ),
      fallbackScore { m with study_hours_per_week := m.study_hours_per_week + d } =
        fallbackScore m + d * (15 / 100) ∧
      fallbackScore { m with previous_gpa := m.previous_gpa + d } =
        fallbackScore m + d * (10 / 100) := by
  intro m d
  constructor <;> (simp only [fallbackScore]; ring)

/-! ## C6 — weak-area flagging -/

/-- C6: counterexample.  With quiz 59 as the only weak metric, the recorded
weak-area entry is the string "Quizzes (59%)", which carries the current
value but not the target threshold 60 — the target is not recorded. -/
theorem c6_counterexample :
    weak_areas ⟨80, 70, 59, 70, 12, 7⟩ = ["Quizzes (59%)"] ∧
    ¬ List.IsInfix (("60").data) (("Quizzes (59%)").data) := by
  decide

/-- C6 (amended): the detector flags a metric exactly when it is strictly
below its target (attendance 75, assignment 60, quiz 60, midterm 60, study
hours 10, GPA 6.0) — a metric exactly at its threshold is not flagged — and
records for each flagged metric its label and current value only. -/
theorem c6_flagging :
    ∀ m : StudentMetrics,
      (MetricName.attendance ∈ weakTags m ↔ m.attendance_pct < 75) ∧
      (MetricName.assignment ∈ weakTags m ↔ m.assignment_score < 60) ∧
      (MetricName.quiz ∈ weakTags m ↔ m.quiz_score < 60) ∧
      (MetricName.midterm ∈ weakTags m ↔ m.midterm_score < 60) ∧
      (MetricName.studyHours ∈ weakTags m ↔ m.study_hours_per_week < 10) ∧
      (MetricName.gpa ∈ weakTags m ↔ m.previous_gpa < 6) ∧
      weak_areas m = (weakTags m).map (renderWeak m) := by
  intro m
  refine ⟨?_, ?_, ?_, ?_, ?_, ?_, weak_areas_eq_map m⟩ <;> simp [mem_weakTags]

/-! ## C7 — guidance selection -/

/-- C7: counterexample.  The claim says the rendered guidance varies with
the weak-area list; the fallback selector returns identical text for the
empty list and a non-empty list at the same risk level, because it ignores
the weak areas entirely. -/
theorem c7_counterexample :
    (["Attendance (50%)"] ≠ ([] : List String)) ∧
    select_guidance "High" ["Attendance (50%)"] = select_guidance "High" [] :=
  ⟨by decide, rfl⟩

/-- C7 (amended): the fallback guidance selector picks the single template
keyed by risk level and returns it unchanged — the weak-area argument has no
effect on the output, and no placeholder is substituted for an empty list. -/
theorem c7_guidance_ignores_weak_areas :
    ∀ (r : String) (w w' : List String),
      select_guidance r w = select_guidance r w' ∧
      select_guidance "High" w = highPlan ∧
      select_guidance "Medium" w = mediumPlan ∧
      select_guidance "Low" w = lowPlan := by
  intro r w w'
  exact ⟨rfl, rfl, rfl, rfl⟩

/-! ## C8 — weak-area ordering and uniqueness -/

/-- C8: the weak-area tag list is always a sublist of the fixed metric
evaluation order (attendance, assignment, quiz, midterm, study hours, GPA),
hence duplicate-free, and the detector's string output is exactly that tag
list rendered in order. -/
theorem c8_fixed_order :
    ∀ m : StudentMetrics,
      List.Sublist (weakTags m)
        [MetricName.attendance, .assignment, .quiz, .midterm, .studyHours, .gpa] ∧
      (weakTags m).Nodup ∧
      weak_areas m = (weakTags m).map (renderWeak m) := by
  rintro ⟨a, b, q, d, s, g⟩
  refine ⟨?_, ?_, weak_areas_eq_map _⟩ <;>
    · simp only [weakTags]
      split_ifs <;> decide

/-! ## C9 — determinism -/

/-- C9: the local scorer and guidance selector are deterministic — equal
inputs give equal weighted scores, equal prediction records, and
byte-identical guidance text. -/
theorem c9_deterministic :
    ∀ (m₁ m₂ : StudentMetrics) (r₁ r₂ : String) (w₁ w₂ : List String),
      m₁ = m₂ → r₁ = r₂ → w₁ = w₂ →
      fallbackScore m₁ = fallbackScore m₂ ∧
      fallback_prediction (some m₁) = fallback_prediction (some m₂) ∧
      select_guidance r₁ w₁ = select_guidance r₂ w₂ := by
  rintro m₁ m₂ r₁ r₂ w₁ w₂ rfl rfl rfl
  exact ⟨rfl, rfl, rfl⟩

/-- C9 witness at a concrete metrics record and guidance call. -/
theorem c9_deterministic_witness :
    fallbackScore ⟨75, 70, 65, 60, 12, 13 / 2⟩ = fallbackScore ⟨75, 70, 65, 60, 12, 13 / 2⟩ ∧
    fallback_prediction (some ⟨75, 70, 65, 60, 12, 13 / 2⟩) =
      fallback_prediction (some ⟨75, 70, 65, 60, 12, 13 / 2⟩) ∧
    select_guidance "High" ["Attendance (55%)"] = select_guidance "High" ["Attendance (55%)"] :=
  c9_deterministic ⟨75, 70, 65, 60, 12, 13 / 2⟩ ⟨75, 70, 65, 60, 12, 13 / 2⟩
    "High" "High" ["Attendance (55%)"] ["Attendance (55%)"] rfl rfl rfl

/-! ## C10 — unknown risk levels default to the Medium template -/

/-- C10: for any risk-level string other than "High", "Medium" and "Low",
the fallback guidance selector totally returns the Medium template. -/
theorem c10_default_medium :
    ∀ r : String, r ≠ "High" → r ≠ "Medium" → r ≠ "Low" →
      fallback_guidance r = mediumPlan := by
  intro r h1 h2 h3
  simp [fallback_guidance, h1, h2, h3]

/-- C10 witness at the unknown risk level "Unknown". -/
theorem c10_default_medium_witness :
    "Unknown" ≠ "High" ∧ "Unknown" ≠ "Medium" ∧ "Unknown" ≠ "Low" ∧
    fallback_guidance "Unknown" = mediumPlan :=
  ⟨by decide, by decide, by decide,
    c10_default_medium "Unknown" (by decide) (by decide) (by decide)⟩
